import Mathlib

/-!
Verification of the Arbhunter core (prediction-market arbitrage scanner)
against its natural-language specification.

The Python source is shallowly embedded in Lean:
* floats become exact rationals (`ℚ`);
* Python `dict.get(k, d)` on optional fields becomes `Option.getD`;
* sites where Python raises (`ZeroDivisionError`, failed HTTP requests)
  are modelled with `Option` / `Except`, and `try/except` blocks become
  explicit matches on those results;
* the HTTP layer is abstracted as an oracle function supplied by the
  caller (one call per issued request), so theorems quantify over every
  possible sequence of server responses;
* wall-clock state (rate-limiter timestamps, `datetime.utcnow()`) is
  outside the functional model and the corresponding fields are omitted.
-/

/-! ## Canonical data model (src/data/market_data.py) -/

/-- `MarketOutcome` from `market_data.py`: one outcome of a market with its
optional price fields (floats modelled as `ℚ`). -/
structure MarketOutcome where
  id : String
  name : String
  yes_price : Option ℚ := none
  no_price : Option ℚ := none
  volume : Option ℚ := none
  last_trade_price : Option ℚ := none
  bid : Option ℚ := none
  ask : Option ℚ := none
  deriving DecidableEq, Repr

/-- `StandardizedMarket` from `market_data.py`, restricted to the fields the
detector consults (`outcomes`, `close_date`, `total_volume`) plus identity
fields; `close_date` is a timestamp measured in days (Python `datetime`). -/
structure StandardizedMarket where
  id : String
  title : String
  close_date : Option ℚ := none
  outcomes : List MarketOutcome := []
  total_volume : Option ℚ := none
  source_url : String := ""
  deriving DecidableEq, Repr

/-- `ArbitrageOpportunity` from `market_data.py`, restricted to the fields
consulted by `calculate_optimal_bet_sizing`. -/
structure ArbitrageOpportunity where
  profit_percentage : ℚ
  required_investment : ℚ
  potential_profit : ℚ := 0
  risk_score : ℚ
  deriving DecidableEq, Repr

/-! ## Arbitrage detector (src/detector.py) -/

namespace ArbitrageDetector

/-- `self.min_profit_percentage` (detector `__init__`). -/
def min_profit_percentage : ℚ := 2

/-- `self.default_investment` (detector `__init__`). -/
def default_investment : ℚ := 1000

/-- `ArbitrageDetector._normalize_price` (detector.py lines 132-140):
`price <= 1.0` is returned unchanged, `price <= 100.0` is divided by 100,
anything larger becomes `min(price / 100.0, 1.0)`. -/
def normalize_price (price : ℚ) : ℚ :=
  if price ≤ 1 then price
  else if price ≤ 100 then price / 100
  else min (price / 100) 1

/-- Result dictionary of `ArbitrageDetector._calculate_arbitrage`. -/
structure ArbitrageCalc where
  profit_percentage : ℚ
  required_investment : ℚ
  potential_profit : ℚ
  buy_price : ℚ
  sell_price : ℚ
  buy_platform : String
  sell_platform : String
  shares : ℚ
  gross_profit : ℚ
  transaction_cost : ℚ
  deriving DecidableEq, Repr

/-- `ArbitrageDetector._calculate_arbitrage` (detector.py lines 73-130).
`none` covers both the explicit `return None` (no positive price
difference) and the `except` path hit by the `ZeroDivisionError` when the
buy price is zero (`shares_to_buy = self.default_investment / investment_per_share`). -/
def calculate_arbitrage (price1 price2 : ℚ) : Option ArbitrageCalc :=
  let p1 := normalize_price price1
  let p2 := normalize_price price2
  let buy_price := if p1 < p2 then p1 else p2
  let sell_price := if p1 < p2 then p2 else p1
  let buy_platform := if p1 < p2 then "Market 1" else "Market 2"
  let sell_platform := if p1 < p2 then "Market 2" else "Market 1"
  let price_difference := sell_price - buy_price
  if price_difference ≤ 0 then none
  else if buy_price = 0 then none
  else
    let shares_to_buy := default_investment / buy_price
    let total_profit := shares_to_buy * price_difference
    let transaction_cost := default_investment * (1 / 100)
    let net_profit := total_profit - transaction_cost
    let net_profit_percentage := net_profit / default_investment * 100
    some
      { profit_percentage := net_profit_percentage
        required_investment := default_investment
        potential_profit := net_profit
        buy_price := buy_price
        sell_price := sell_price
        buy_platform := buy_platform
        sell_platform := sell_platform
        shares := shares_to_buy
        gross_profit := total_profit
        transaction_cost := transaction_cost }

/-- The keys of the pairing-stage `match` dictionary that
`_calculate_risk_score` consults (`similarity_score`, `price_difference`);
absent keys are `none` (Python `dict.get` with a default). -/
structure MatchInput where
  similarity_score : Option ℚ := none
  price_difference : Option ℚ := none
  deriving DecidableEq, Repr

/-- Python `timedelta.days` of the difference of two datetimes measured in
days: floor division of the signed difference. -/
def timedeltaDays (d : ℚ) : ℤ := ⌊d⌋

/-- `ArbitrageDetector._calculate_risk_score` (detector.py lines 142-181):
builds `risk_factors` in source order and returns `min(sum, 1.0)`. -/
def calculate_risk_score (mt : MatchInput) (market1 market2 : StandardizedMarket) : ℚ :=
  let time_factors : List ℚ :=
    match market1.close_date, market2.close_date with
    | some d1, some d2 =>
        if (timedeltaDays (d1 - d2)).natAbs > 7 then [3/10] else []
    | _, _ => []
  let total_volume_1 := market1.total_volume.getD 0
  let total_volume_2 := market2.total_volume.getD 0
  let liquidity_factors : List ℚ :=
    if total_volume_1 < 1000 ∨ total_volume_2 < 1000 then [1/5] else []
  let platform_factors : List ℚ := [1/10]
  let similarity_score := mt.similarity_score.getD (1/2)
  let similarity_factors : List ℚ := [(1 - similarity_score) * (2/5)]
  let price_diff := mt.price_difference.getD 0
  let volatility_factors : List ℚ := if price_diff > 3/10 then [3/10] else []
  let risk_factors :=
    time_factors ++ liquidity_factors ++ platform_factors ++
      similarity_factors ++ volatility_factors
  min risk_factors.sum 1

/-- Result dictionary of `ArbitrageDetector.calculate_optimal_bet_sizing`. -/
structure BetSizing where
  optimal_investment : ℚ
  kelly_fraction : ℚ
  position_percentage : ℚ
  expected_profit : ℚ
  max_loss : ℚ
  deriving DecidableEq, Repr

/-- The `try` body of `calculate_optimal_bet_sizing` (detector.py lines
191-219).  The two division sites that raise `ZeroDivisionError` in Python
(`kelly_fraction = (win_probability * profit_ratio) / profit_ratio` when
`profit_ratio` is zero, and `optimal_investment / available_capital` when
the capital is zero) are made explicit and yield `none`. -/
def bet_sizing_body (opportunity : ArbitrageOpportunity)
    (available_capital max_position_size : ℚ) : Option BetSizing :=
  let win_probability := 1 - opportunity.risk_score
  let profit_ratio := opportunity.profit_percentage / 100
  if profit_ratio = 0 then none
  else
    let kelly_fraction := win_probability * profit_ratio / profit_ratio
    let conservative_factor : ℚ := 1/2
    let kelly_fraction := kelly_fraction * conservative_factor
    let max_position := available_capital * max_position_size
    let optimal_investment :=
      min (min (kelly_fraction * available_capital) max_position)
        opportunity.required_investment
    if available_capital = 0 then none
    else
      some
        { optimal_investment := optimal_investment
          kelly_fraction := kelly_fraction
          position_percentage := optimal_investment / available_capital * 100
          expected_profit := optimal_investment * (profit_ratio * win_probability)
          max_loss := optimal_investment * opportunity.risk_score }

/-- The `except` fallback of `calculate_optimal_bet_sizing` (detector.py
lines 221-229). -/
def bet_sizing_fallback (opportunity : ArbitrageOpportunity) : BetSizing :=
  { optimal_investment := opportunity.required_investment
    kelly_fraction := 0
    position_percentage := 0
    expected_profit := 0
    max_loss := 0 }

/-- `ArbitrageDetector.calculate_optimal_bet_sizing` (detector.py lines
183-229): the `try` body, with the `except` clause returning the fixed
fallback dictionary.  `max_position_size` defaults to `0.1` at the call
sites. -/
def calculate_optimal_bet_sizing (opportunity : ArbitrageOpportunity)
    (available_capital : ℚ) (max_position_size : ℚ := 1/10) : BetSizing :=
  match bet_sizing_body opportunity available_capital max_position_size with
  | some r => r
  | none => bet_sizing_fallback opportunity

/-- First loop of `ArbitrageDetector._get_best_price` (detector.py lines
336-340): per outcome, return `yes_price` if present, else
`last_trade_price` if present, else move to the next outcome. -/
def best_price_yes_pass : List MarketOutcome → Option ℚ
  | [] => none
  | o :: os =>
    match o.yes_price with
    | some p => some p
    | none =>
      match o.last_trade_price with
      | some p => some p
      | none => best_price_yes_pass os

/-- Second loop of `ArbitrageDetector._get_best_price` (detector.py lines
343-345): `1.0 - no_price` of the first outcome carrying a `no_price`. -/
def best_price_no_pass : List MarketOutcome → Option ℚ
  | [] => none
  | o :: os =>
    match o.no_price with
    | some p => some (1 - p)
    | none => best_price_no_pass os

/-- `ArbitrageDetector._get_best_price` (detector.py lines 330-347). -/
def get_best_price (market : StandardizedMarket) : Option ℚ :=
  if market.outcomes = [] then none
  else
    match best_price_yes_pass market.outcomes with
    | some p => some p
    | none => best_price_no_pass market.outcomes

/-- Result dictionary of `_calculate_arbitrage_opportunity` (the
`detected_at` wall-clock timestamp is outside the functional model). -/
structure OpportunityInfo where
  kalshi_price : ℚ
  polymarket_price : ℚ
  spread : ℚ
  profit_percentage : ℚ
  profit_per_dollar : ℚ
  buy_market : String
  sell_market : String
  buy_price : ℚ
  sell_price : ℚ
  deriving DecidableEq, Repr

/-- `ArbitrageDetector._calculate_arbitrage_opportunity` (detector.py lines
266-328): rejects the pair (returns `none`) when either side has no derivable
price or the spread is below `min_spread = 0.03`. -/
def calculate_arbitrage_opportunity (kalshi_market polymarket_market : StandardizedMarket) :
    Option OpportunityInfo :=
  match get_best_price kalshi_market, get_best_price polymarket_market with
  | some kalshi_price, some polymarket_price =>
    let spread := |kalshi_price - polymarket_price|
    let min_spread : ℚ := 3/100
    if spread < min_spread then none
    else
      let buy_market := if kalshi_price < polymarket_price then "kalshi" else "polymarket"
      let sell_market := if kalshi_price < polymarket_price then "polymarket" else "kalshi"
      let buy_price := if kalshi_price < polymarket_price then kalshi_price else polymarket_price
      let sell_price := if kalshi_price < polymarket_price then polymarket_price else kalshi_price
      let profit_per_dollar := sell_price - buy_price
      some
        { kalshi_price := kalshi_price
          polymarket_price := polymarket_price
          spread := spread
          profit_percentage := profit_per_dollar * 100
          profit_per_dollar := profit_per_dollar
          buy_market := buy_market
          sell_market := sell_market
          buy_price := buy_price
          sell_price := sell_price }
  | _, _ => none

end ArbitrageDetector

/-! ## Python string primitives (modelled on lists of characters) -/

namespace PyStr

/-- The ASCII whitespace characters stripped by Python `str.strip()`. -/
def isSpace (c : Char) : Bool :=
  c = ' ' ∨ c = '\t' ∨ c = '\n' ∨ c = '\x0d' ∨ c = '\x0b' ∨ c = '\x0c'

/-- Python `s.lstrip()` restricted to a character predicate. -/
def lstripBy (p : Char → Bool) (s : List Char) : List Char :=
  s.dropWhile p

/-- Python `s.rstrip(chars)`: drop the longest trailing run of characters
satisfying `p` (implemented, as usual, through `reverse`). -/
def rstripBy (p : Char → Bool) (s : List Char) : List Char :=
  (s.reverse.dropWhile p).reverse

/-- Python `s.strip()`. -/
def strip (s : List Char) : List Char :=
  rstripBy isSpace (lstripBy isSpace s)

/-- Python `s.startswith(pre)`. -/
def startsWith (pre s : List Char) : Bool :=
  List.isPrefixOf pre s

/-- Python `s.replace(old, "")` for a single character `old`: remove every
occurrence anywhere in the string. -/
def removeChar (c : Char) (s : List Char) : List Char :=
  s.filter (fun d => d ≠ c)

end PyStr

namespace ArbitrageDetector

/-- The fixed list `prefixes_to_remove` shared by both
`_extract_primary_question` implementations. -/
def prefixes_to_remove : List (List Char) :=
  ["Will ".toList, "Does ".toList, "Did ".toList, "Is ".toList,
   "Are ".toList, "Has ".toList, "Have ".toList]

/-- The `for prefix in prefixes_to_remove: ... break` loop: strip the first
matching leading interrogative marker (at most one, earliest in list order). -/
def stripOneInterrogative (s : List Char) : List Char :=
  match prefixes_to_remove.find? (fun p => PyStr.startsWith p s) with
  | some p => s.drop p.length
  | none => s

/-- The shared final truncation step: `question[:200] + "..."` when the
length exceeds 200 characters. -/
def truncate200 (s : List Char) : List Char :=
  if s.length > 200 then s.take 200 ++ "...".toList else s

/-- `KalshiClient._extract_primary_question` (kalshi_client.py lines
473-492): strip at most one leading interrogative marker, then
`rstrip('?')` (every trailing question mark), then `strip()` (surrounding
whitespace), then truncate with an ellipsis beyond 200 characters. -/
def kalshi_extract_primary_question (title : List Char) : List Char :=
  let question := stripOneInterrogative title
  let question := PyStr.strip (PyStr.rstripBy (fun c => c = '?') question)
  truncate200 question

/-- `PolymarketClient._extract_primary_question` (polymarket_client.py lines
669-687): `replace("?", "")` removes every question mark anywhere, then
`strip()`, then at most one leading interrogative marker is stripped, then
the 200-character truncation. -/
def polymarket_extract_primary_question (title : List Char) : List Char :=
  let question := PyStr.strip (PyStr.removeChar '?' title)
  let question := stripOneInterrogative question
  truncate200 question

/-- The extraction procedure exactly as claim C9 words it: strip at most one
leading interrogative marker, strip the trailing "?" (and no other
characters), truncate beyond 200 characters with an ellipsis marker. -/
def claim_extract_primary_question (title : List Char) : List Char :=
  let question := stripOneInterrogative title
  let question := if question.getLast? = some '?' then question.dropLast else question
  truncate200 question

/-- The best-available YES-probability exactly as claim C6 words it: the
first present `yes_price` over all outcomes; else the first present
`last_trade_price`; else one minus the first present `no_price`; else
absent. -/
def claim_best_price (market : StandardizedMarket) : Option ℚ :=
  match market.outcomes.findSome? (fun o => o.yes_price) with
  | some p => some p
  | none =>
    match market.outcomes.findSome? (fun o => o.last_trade_price) with
    | some p => some p
    | none =>
      match market.outcomes.findSome? (fun o => o.no_price) with
      | some p => some (1 - p)
      | none => none

/-- Amended description of `_get_best_price`: the first outcome carrying a
`yes_price` or a `last_trade_price` supplies the price (preferring
`yes_price` within that outcome); otherwise one minus the first present
`no_price`; otherwise absent. -/
def amended_best_price (market : StandardizedMarket) : Option ℚ :=
  match market.outcomes.findSome?
      (fun o => o.yes_price.orElse (fun _ => o.last_trade_price)) with
  | some p => some p
  | none =>
    match market.outcomes.findSome? (fun o => o.no_price) with
    | some p => some (1 - p)
    | none => none

end ArbitrageDetector

/-! ## HTTP client layer (src/base_client.py, src/kalshi_client.py,
src/polymarket_client.py) -/

/-- `APIError` from `base_client.py`, carrying its message. -/
structure APIError where
  msg : String
  deriving DecidableEq, Repr

/-- One HTTP exchange as seen by a client: either a server response
(status, the integer value of a `Retry-After` header when present, raw
body) or a transport-level failure.  Supplied by an oracle, one per
issued request. -/
inductive HttpOutcome where
  | response (status : Nat) (retry_after : Option ℤ) (body : String)
  | transport (msg : String)
  deriving DecidableEq, Repr

deriving instance DecidableEq for Except

/-- Observable trace of one `_make_request` call: the returned body or the
propagated error, the durations (seconds, in order) passed to
`asyncio.sleep`, and the number of HTTP attempts issued.  (The
rate-limiter minimum-interval sleep of the Kalshi client depends on the
wall clock and is outside the functional model.) -/
structure RequestTrace where
  result : Except APIError String
  sleeps : List ℚ
  attempts : Nat
  deriving DecidableEq, Repr

namespace PolymarketClient

/-- One iteration of the retry loop of `PolymarketClient._make_request`
(polymarket_client.py lines 69-109), recursing on the number of remaining
attempts; `attempt = max_retries - remaining + 1`.  Each iteration sleeps
`0.1` (rate limiting), issues the request, and on HTTP 429 sleeps the
`Retry-After` value (default 60) before raising; any failure waits
`2 * attempt` and retries while `attempt < max_retries`, and the last
error propagates afterwards. -/
def make_request_go (oracle : Nat → HttpOutcome) (max_retries : Nat) :
    Nat → List ℚ → Nat → RequestTrace
  | 0, sleeps, n =>
    -- `range(1, max_retries + 1)` was empty (`max_retries = 0`): the
    -- Python function falls off the loop returning `None`; no theorem
    -- below exercises this configuration.
    ⟨.error ⟨"fell through retry loop"⟩, sleeps, n⟩
  | remaining + 1, sleeps, n =>
    let attempt := max_retries - remaining
    let sleeps := sleeps ++ [1/10]
    let n := n + 1
    let failWith (msg : String) (sleeps : List ℚ) : RequestTrace :=
      if remaining > 0 then
        make_request_go oracle max_retries remaining
          (sleeps ++ [2 * (attempt : ℚ)]) n
      else ⟨.error ⟨msg⟩, sleeps, n⟩
    match oracle attempt with
    | .transport m => failWith m sleeps
    | .response status retry_after body =>
      if status = 429 then
        failWith "Rate limit exceeded" (sleeps ++ [((retry_after.getD 60 : ℤ) : ℚ)])
      else if status ≥ 400 then
        failWith ("HTTP " ++ toString status) sleeps
      else ⟨.ok body, sleeps, n⟩

/-- `PolymarketClient._make_request` / `_make_post_request`
(polymarket_client.py lines 48-171; both have the identical retry
structure), abstracted over the per-attempt HTTP oracle.  `max_retries`
defaults to 3. -/
def make_request (oracle : Nat → HttpOutcome) (max_retries : Nat := 3) : RequestTrace :=
  make_request_go oracle max_retries max_retries [] 0

end PolymarketClient

namespace KalshiClient

/-- `KalshiClient._make_request` (kalshi_client.py lines 118-213): a single
attempt with no retry loop.  HTTP 429 sleeps the `Retry-After` value
(default 60) and then raises `APIError("Rate limit exceeded")`; other
HTTP errors and transport failures raise immediately; the outer `except`
re-raises `APIError` unchanged and wraps anything else. -/
def make_request (oracle : HttpOutcome) : RequestTrace :=
  match oracle with
  | .transport m => ⟨.error ⟨"Request failed: " ++ m⟩, [], 1⟩
  | .response status retry_after body =>
    if status = 429 then
      ⟨.error ⟨"Rate limit exceeded"⟩, [((retry_after.getD 60 : ℤ) : ℚ)], 1⟩
    else if status ≥ 400 then
      ⟨.error ⟨"HTTP " ++ toString status⟩, [], 1⟩
    else ⟨.ok body, [], 1⟩

end KalshiClient

/-! ### Polymarket batch price support (`get_market_prices`) -/

namespace PolymarketClient

/-- `{"token_id": ..., "side": "BUY" | "SELL"}` entries of the `prices`
POST payload. -/
inductive Side where
  | BUY
  | SELL
  deriving DecidableEq, Repr

/-- A `BookParams` payload entry. -/
structure BookParams where
  token_id : String
  side : Side
  deriving DecidableEq, Repr

/-- The `prices` endpoint response: a dictionary keyed by token id, each
value mapping a side to a price. -/
abbrev PricesDict := List (String × List (Side × ℚ))

/-- Python `d[k] = v` on a dict modelled as an ordered association list:
overwrite in place when the key exists, append otherwise. -/
def dictSet (d : PricesDict) (k : String) (v : List (Side × ℚ)) : PricesDict :=
  if d.any (fun p => p.1 = k) then
    d.map (fun p => if p.1 = k then (k, v) else p)
  else d ++ [(k, v)]

/-- `range(0, stop, step)` for `step > 0`. -/
def rangeStep (stop step : Nat) : List Nat :=
  (List.range ((stop + step - 1) / step)).map (· * step)

/-- Python slice `l[i : i + n]`. -/
def pySlice (l : List String) (i n : Nat) : List String :=
  (l.drop i).take n

/-- State threaded through the (mis-indented) request loop of
`get_market_prices`: the cumulative `payload` list, the `all_prices`
dictionary, and the log of payloads actually POSTed. -/
structure PriceLoopState where
  payload : List BookParams
  all_prices : PricesDict
  requests : List (List BookParams)

/-- `PolymarketClient.get_market_prices` (polymarket_client.py lines
590-667), embedded exactly as written.  Because `payload = []` and the
`for token_id in chunk:` loop are indented at the level of the
`for i in range(...)` statement rather than inside it, the chunking loop
only rebinds `chunk` (leaving it at the final slice), and one POST request
is then issued per token of that last chunk with the cumulative payload.
The merge step scans the whole `chunk` against each response, failed
requests are skipped (`continue`), and the function returns `all_prices`
or `None` when it stayed empty.  The second component of the result is
the log of issued POST payloads. -/
def get_market_prices (post : List BookParams → Except APIError PricesDict)
    (token_ids : List String) : Option PricesDict × List (List BookParams) :=
  if token_ids = [] then (some [], [])
  else
    let chunk_size := 10
    -- `for i in range(0, len(token_ids), chunk_size): chunk = token_ids[i:i+chunk_size]`
    -- (the dedent makes slicing the loop's whole body).
    let chunk := (rangeStep token_ids.length chunk_size).foldl
      (fun _ i => pySlice token_ids i chunk_size) []
    let final := chunk.foldl
      (fun (st : PriceLoopState) token_id =>
        let payload := st.payload ++ [⟨token_id, .BUY⟩, ⟨token_id, .SELL⟩]
        let requests := st.requests ++ [payload]
        match post payload with
        | .error _ => ⟨payload, st.all_prices, requests⟩
        | .ok prices_response =>
          if prices_response = [] then ⟨payload, st.all_prices, requests⟩
          else
            let all_prices := chunk.foldl
              (fun d t =>
                match prices_response.find? (fun p => p.1 = t) with
                | some pv => dictSet d t pv.2
                | none => d)
              st.all_prices
            ⟨payload, all_prices, requests⟩)
      ⟨[], [], []⟩
    ((if final.all_prices = [] then none else some final.all_prices), final.requests)

end PolymarketClient

/-! ### Listing, keyword pagination and detail fetches -/

namespace PyStr

/-- Python `needle in hay` (substring containment). -/
def containsSub (needle hay : List Char) : Bool :=
  (List.range (hay.length + 1)).any (fun i => List.isPrefixOf needle (hay.drop i))

/-- Python `s.lower()` (ASCII case folding suffices for the model). -/
def lower (s : String) : List Char :=
  s.toList.map Char.toLower

/-- Python truthiness of an optional string (`None` and `""` are falsy). -/
def strOptTruthy : Option String → Bool
  | some s => s ≠ ""
  | none => false

/-- Python truthiness of an optional integer (`None` and `0` are falsy). -/
def natOptTruthy : Option Nat → Bool
  | some n => n ≠ 0
  | none => false

end PyStr

namespace KalshiClient

/-- The fields of a raw Kalshi market record consulted by the listing and
keyword-filter code (`.get` defaults apply for missing keys); the many
fields only read inside `_convert_to_standardized_market` stay behind the
`convert` parameter below. -/
structure KalshiRawMarket where
  ticker : String := ""
  title : String := ""
  rules_primary : String := ""
  deriving DecidableEq, Repr

/-- Query parameters of a Kalshi `markets` request. -/
structure KalshiReq where
  status : String
  limit : Option Nat := none
  cursor : Option String := none
  deriving DecidableEq, Repr

/-- A Kalshi `markets` response: `response.get('markets', [])` and
`response.get('cursor')`. -/
structure KalshiMarketsResponse where
  markets : List KalshiRawMarket := []
  cursor : Option String := none
  deriving DecidableEq, Repr

/-- `KalshiClient.get_markets` (kalshi_client.py lines 215-246),
parameterised by the request oracle and by
`_convert_to_standardized_market` (a total `Option`-valued function: its
Python body absorbs its own exceptions).  Records failing conversion are
skipped; a failed fetch is re-raised wrapped in a new `APIError`. -/
def get_markets (fetch : KalshiReq → Except APIError KalshiMarketsResponse)
    (convert : KalshiRawMarket → Option StandardizedMarket)
    (limit : Option Nat) : Except APIError (List StandardizedMarket) :=
  let params : KalshiReq :=
    { status := "open", limit := if PyStr.natOptTruthy limit then limit else none }
  match fetch params with
  | .error e => .error ⟨"Failed to fetch Kalshi markets: " ++ e.msg⟩
  | .ok response => .ok (response.markets.filterMap convert)

/-- The per-record body of the keyword loop: case-insensitive substring
match over `title` / `rules_primary`, then conversion (whose failures,
like per-record exceptions, are skipped). -/
def keywordFilterMap (convert : KalshiRawMarket → Option StandardizedMarket)
    (keyword : String) (rs : List KalshiRawMarket) : List StandardizedMarket :=
  rs.filterMap (fun r =>
    if PyStr.containsSub (PyStr.lower keyword) (PyStr.lower r.title) ∨
        PyStr.containsSub (PyStr.lower keyword) (PyStr.lower r.rules_primary) then
      convert r
    else none)

/-- The `while True` pagination loop of `KalshiClient.get_markets_by_keyword`
(kalshi_client.py lines 257-299), with an explicit fuel bound on the number
of iterations (the theorems always supply enough fuel).  Returns the
accumulated markets together with the number of fetches issued
(`page_count`).  The loop body requests `limit=200, status=open` plus the
previous cursor when truthy, stops on an empty page, and otherwise stops
when the new cursor is falsy **or the page carried fewer than 200
records**. -/
def get_markets_by_keyword_go (fetch : KalshiReq → Except APIError KalshiMarketsResponse)
    (convert : KalshiRawMarket → Option StandardizedMarket) (keyword : String) :
    Nat → Option String → List StandardizedMarket → Nat →
      Except APIError (List StandardizedMarket × Nat)
  | 0, _, acc, n => .ok (acc, n)
  | fuel + 1, cursor, acc, n =>
    let n := n + 1
    let params : KalshiReq :=
      { status := "open", limit := some 200,
        cursor := if PyStr.strOptTruthy cursor then cursor else none }
    match fetch params with
    | .error e => .error e
    | .ok response =>
      let market_data := response.markets
      let cursor' := response.cursor
      if market_data = [] then .ok (acc, n)
      else
        let acc := acc ++ keywordFilterMap convert keyword market_data
        if ¬ PyStr.strOptTruthy cursor' ∨ market_data.length < 200 then .ok (acc, n)
        else get_markets_by_keyword_go fetch convert keyword fuel cursor' acc n

/-- `KalshiClient.get_markets_by_keyword` (kalshi_client.py lines 248-306):
the pagination loop with the outer `except` re-raising a wrapped
`APIError`. -/
def get_markets_by_keyword (fetch : KalshiReq → Except APIError KalshiMarketsResponse)
    (convert : KalshiRawMarket → Option StandardizedMarket) (keyword : String)
    (fuel : Nat) : Except APIError (List StandardizedMarket × Nat) :=
  match get_markets_by_keyword_go fetch convert keyword fuel none [] 0 with
  | .error e => .error ⟨"Failed to fetch Kalshi markets by keyword: " ++ e.msg⟩
  | .ok r => .ok r

/-- A Kalshi `markets/{id}` response: `response.get('market', {})`, where
`none` stands for the falsy empty dictionary. -/
structure KalshiDetailResponse where
  market : Option KalshiRawMarket := none
  deriving DecidableEq, Repr

/-- `KalshiClient.get_market_details` (kalshi_client.py lines 308-324):
every failure (fetch error, falsy record, failed conversion) degrades to
`none`. -/
def get_market_details (fetch : String → Except APIError KalshiDetailResponse)
    (convert : KalshiRawMarket → Option StandardizedMarket)
    (market_id : String) : Option StandardizedMarket :=
  match fetch market_id with
  | .error _ => none
  | .ok response =>
    match response.market with
    | none => none
    | some market_data => convert market_data
end KalshiClient

namespace PolymarketClient

/-- A raw CLOB token entry (`token.get('token_id')`,
`token.get('outcome', 'Unknown')`); a missing id is the falsy `""`. -/
structure PolyToken where
  token_id : String := ""
  outcome : String := "Unknown"
  deriving DecidableEq, Repr

/-- The fields of a raw CLOB market record consulted by the listing code
(`.get` defaults: `active` False, `closed` True). -/
structure PolyRawMarket where
  condition_id : String := ""
  question : String := ""
  active : Bool := false
  closed : Bool := true
  tokens : List PolyToken := []
  deriving DecidableEq, Repr

/-- A CLOB `markets` page: `markets_response.get('data', [])` and
`markets_response.get('next_cursor', '')`. -/
structure PolyPage where
  data : List PolyRawMarket := []
  next_cursor : String := ""
  deriving DecidableEq, Repr

/-- The `while True` loop of `PolymarketClient.get_markets`
(polymarket_client.py lines 261-306), fuel-bounded.  The request oracle is
keyed by the effective `next_cursor` query parameter (`none` when the
cursor string is empty); `.ok none` stands for a falsy response
dictionary.  `convert_batch` stands for the total
`_convert_markets_with_batch_pricing` (its Python body absorbs every
per-market and batch-pricing failure). -/
def get_markets_go (fetch : Option String → Except APIError (Option PolyPage))
    (convert_batch : List PolyRawMarket → List StandardizedMarket)
    (limit : Option Nat) :
    Nat → String → List StandardizedMarket → Except APIError (List StandardizedMarket)
  | 0, _, acc => .ok acc
  | fuel + 1, next_cursor, acc =>
    let params := if next_cursor ≠ "" then some next_cursor else none
    match fetch params with
    | .error e => .error e
    | .ok none => .ok acc
    | .ok (some resp) =>
      let markets_data := resp.data
      let next_cursor := resp.next_cursor
      if markets_data = [] then .ok acc
      else
        let markets_to_process := markets_data.filter (fun r => r.active ∧ ¬ r.closed)
        let acc := acc ++
          (if markets_to_process = [] then [] else convert_batch markets_to_process)
        if next_cursor = "LTE=" ∨ next_cursor = "" then .ok acc
        else
          match limit with
          | some l =>
            if l ≠ 0 ∧ acc.length ≥ l then .ok (acc.take l)
            else get_markets_go fetch convert_batch limit fuel next_cursor acc
          | none => get_markets_go fetch convert_batch limit fuel next_cursor acc

/-- `PolymarketClient.get_markets` (polymarket_client.py lines 252-313):
the pagination loop with the outer `except` degrading every failure to the
empty list. -/
def get_markets (fetch : Option String → Except APIError (Option PolyPage))
    (convert_batch : List PolyRawMarket → List StandardizedMarket)
    (limit : Option Nat) (fuel : Nat) : List StandardizedMarket :=
  match get_markets_go fetch convert_batch limit fuel "" [] with
  | .ok l => l
  | .error _ => []

/-- The per-page body of the Polymarket keyword loop: keep active,
non-closed records whose `question` contains the keyword
(case-insensitive). -/
def keywordPageFilter (keyword : String) (rs : List PolyRawMarket) : List PolyRawMarket :=
  rs.filter (fun r =>
    r.active ∧ ¬ r.closed ∧
      PyStr.containsSub (PyStr.lower keyword) (PyStr.lower r.question))

/-- `markets_to_process` is only converted when non-empty
(`if markets_to_process:`). -/
def guardedConvert (convert_batch : List PolyRawMarket → List StandardizedMarket)
    (rs : List PolyRawMarket) : List StandardizedMarket :=
  if rs = [] then [] else convert_batch rs

/-- The `while True` loop of `PolymarketClient.get_markets_by_keyword`
(polymarket_client.py lines 324-375), fuel-bounded, also returning the
number of fetches issued (`page_count`). -/
def get_markets_by_keyword_go (fetch : Option String → Except APIError (Option PolyPage))
    (convert_batch : List PolyRawMarket → List StandardizedMarket) (keyword : String) :
    Nat → String → List StandardizedMarket → Nat →
      Except APIError (List StandardizedMarket × Nat)
  | 0, _, acc, n => .ok (acc, n)
  | fuel + 1, next_cursor, acc, n =>
    let n := n + 1
    let params := if next_cursor ≠ "" then some next_cursor else none
    match fetch params with
    | .error e => .error e
    | .ok none => .ok (acc, n)
    | .ok (some resp) =>
      let markets_data := resp.data
      let next_cursor := resp.next_cursor
      if markets_data = [] then .ok (acc, n)
      else
        let acc := acc ++
          guardedConvert convert_batch (keywordPageFilter keyword markets_data)
        if next_cursor = "LTE=" ∨ next_cursor = "" then .ok (acc, n)
        else get_markets_by_keyword_go fetch convert_batch keyword fuel next_cursor acc n

/-- `PolymarketClient.get_markets_by_keyword` (polymarket_client.py lines
315-382): the pagination loop with the outer `except` degrading every
failure to the empty list (the page count of the exception path is not
observable in Python and is reported as 0). -/
def get_markets_by_keyword (fetch : Option String → Except APIError (Option PolyPage))
    (convert_batch : List PolyRawMarket → List StandardizedMarket) (keyword : String)
    (fuel : Nat) : List StandardizedMarket × Nat :=
  match get_markets_by_keyword_go fetch convert_batch keyword fuel "" [] 0 with
  | .ok r => r
  | .error _ => ([], 0)

/-- `PolymarketClient.get_market_details` (polymarket_client.py lines
384-416): fetch the raw record (`.ok none` = falsy dictionary), collect
truthy token ids, price them through `get_market_prices`, and convert via
`_convert_to_standardized_market_with_prices` (the `convP` parameter, a
total `Option`-valued function); every failure degrades to `none`. -/
def get_market_details (fetch : String → Except APIError (Option PolyRawMarket))
    (post : List BookParams → Except APIError PricesDict)
    (convP : PolyRawMarket → PricesDict → Option StandardizedMarket)
    (market_id : String) : Option StandardizedMarket :=
  match fetch market_id with
  | .error _ => none
  | .ok none => none
  | .ok (some market_data) =>
    let token_ids := (market_data.tokens.map (fun t => t.token_id)).filter (fun t => t ≠ "")
    let market_prices : PricesDict :=
      if token_ids = [] then []
      else
        match (get_market_prices post token_ids).1 with
        | some prices_data => if prices_data = [] then [] else prices_data
        | none => []
    convP market_data market_prices

end PolymarketClient

/-! ## Claim C5/C10 refinement definition -/

namespace ArbitrageDetector

/-- The bet-sizing result exactly as claim C5 words it: winProbability =
1 − risk_score, kellyFraction = 0.5 × winProbability, investment =
min(kellyFraction × capital, maxPositionFraction × capital,
required_investment), with the fraction of capital used (as a
percentage), the expected profit, and worst-case loss = investment ×
risk_score. -/
def claim_bet_sizing (opportunity : ArbitrageOpportunity)
    (available_capital max_position_fraction : ℚ) : BetSizing :=
  let win_probability := 1 - opportunity.risk_score
  let kelly_fraction := 1/2 * win_probability
  let investment :=
    min (min (kelly_fraction * available_capital)
        (max_position_fraction * available_capital))
      opportunity.required_investment
  { optimal_investment := investment
    kelly_fraction := kelly_fraction
    position_percentage := investment / available_capital * 100
    expected_profit := investment * (opportunity.profit_percentage / 100 * win_probability)
    max_loss := investment * opportunity.risk_score }

end ArbitrageDetector

open ArbitrageDetector in
/-- Claim C8, counterexample: the claim asserts that every cents-scaled
price in [0,100] is divided by 100, but `_normalize_price` returns any
price ≤ 1.0 unchanged, so the cents value 1 maps to 1, not 1/100. -/
theorem c8_counterexample :
    normalize_price 1 = 1 ∧ (1 : ℚ) ≠ 1 / 100 := by
  constructor
  · norm_num [normalize_price]
  · norm_num

open ArbitrageDetector in
/-- Claim C8, amended: prices ≤ 1 (cents-scaled or not) are returned
unchanged; prices in (1, 100] are divided by 100; prices above 100 are
clamped to exactly 1; and `_calculate_arbitrage` is invariant under
pre-normalizing its two input prices (the guard is applied uniformly to
prices entering the arbitrage computation). -/
theorem c8_normalize_amended (p p₁ p₂ : ℚ) :
    (p ≤ 1 → normalize_price p = p) ∧
    (1 < p → p ≤ 100 → normalize_price p = p / 100) ∧
    (100 < p → normalize_price p = 1) ∧
    calculate_arbitrage p₁ p₂ =
      calculate_arbitrage (normalize_price p₁) (normalize_price p₂) := by
  have idem : ∀ q : ℚ, normalize_price (normalize_price q) = normalize_price q := by
    intro q
    have hle : normalize_price q ≤ 1 := by
      unfold normalize_price
      split_ifs with h1 h2
      · exact h1
      · linarith [(div_le_one (by linarith : (0:ℚ) < 100)).mpr h2]
      · exact min_le_right _ _
    unfold normalize_price at hle ⊢
    rw [if_pos hle]
  refine ⟨?_, ?_, ?_, ?_⟩
  · intro h; unfold normalize_price; rw [if_pos h]
  · intro h1 h2; unfold normalize_price
    rw [if_neg (by linarith), if_pos h2]
  · intro h; unfold normalize_price
    rw [if_neg (by linarith), if_neg (by linarith)]
    have : (1 : ℚ) ≤ p / 100 := by
      rw [le_div_iff₀ (by norm_num : (0:ℚ) < 100)]; linarith
    simp [min_eq_right this]
  · unfold calculate_arbitrage
    rw [idem p₁, idem p₂]

/-- Claim C8, witness for the amended theorem at concrete prices 1/2
(unit scale), 50 (cents scale), 150 (out of range), and the pair
(40, 11/20) for the uniform-application part. -/
theorem c8_amended_witness :
    ArbitrageDetector.normalize_price (1/2) = 1/2 ∧
    ArbitrageDetector.normalize_price 50 = 50 / 100 ∧
    ArbitrageDetector.normalize_price 150 = 1 ∧
    ArbitrageDetector.calculate_arbitrage 40 (11/20) =
      ArbitrageDetector.calculate_arbitrage
        (ArbitrageDetector.normalize_price 40)
        (ArbitrageDetector.normalize_price (11/20)) :=
  ⟨(c8_normalize_amended (1/2) 0 0).1 (by norm_num),
   (c8_normalize_amended 50 0 0).2.1 (by norm_num) (by norm_num),
   (c8_normalize_amended 150 0 0).2.2.1 (by norm_num),
   (c8_normalize_amended 0 40 (11/20)).2.2.2⟩

open ArbitrageDetector in
/-- Claim C4, counterexample: the claim quantifies over any similarity
score, but for a match carrying `similarity_score = 2` (and two markets
with unknown close dates and healthy volumes) the risk score is
1/10 + (1 − 2) × 4/10 = −3/10 < 0, outside [0, 1]. -/
theorem c4_counterexample :
    calculate_risk_score
      { similarity_score := some 2, price_difference := some 0 }
      { id := "k1", title := "k", total_volume := some 2000 }
      { id := "p1", title := "p", total_volume := some 2000 } < 0 := by
  norm_num [calculate_risk_score]

open ArbitrageDetector in
/-- Claim C4, amended: the risk score is always at most 1, and it lies in
[0, 1] whenever the externally supplied similarity score (default 1/2
when absent) is at most 1 — in particular for every similarity score on
the documented [0, 1] scale; similarity scores above 1 can drive it
negative. -/
theorem c4_risk_score_range_amended (mt : MatchInput) (m1 m2 : StandardizedMarket) :
    calculate_risk_score mt m1 m2 ≤ 1 ∧
    (mt.similarity_score.getD (1/2) ≤ 1 → 0 ≤ calculate_risk_score mt m1 m2) := by
  unfold calculate_risk_score
  constructor
  · exact min_le_right _ _
  · intro h
    refine le_min ?_ (by norm_num)
    have hs : 0 ≤ (1 - mt.similarity_score.getD (1/2)) * (2/5 : ℚ) :=
      mul_nonneg (by linarith) (by norm_num)
    rcases m1.close_date with _ | d1 <;> rcases m2.close_date with _ | d2 <;>
      simp only [List.sum_append, List.sum_cons, List.sum_nil] <;>
        split_ifs <;> simp only [List.sum_append, List.sum_cons, List.sum_nil] <;> linarith

open ArbitrageDetector in
/-- Claim C4, witness for the amended theorem at a concrete match (absent
similarity, hence the 1/2 default) and two concrete markets. -/
theorem c4_amended_witness :
    (({ price_difference := some (1/2) } : MatchInput).similarity_score.getD (1/2) ≤ 1) ∧
    calculate_risk_score { price_difference := some (1/2) }
      { id := "k1", title := "k", close_date := some 0, total_volume := some 10 }
      { id := "p1", title := "p", close_date := some 30, total_volume := some 10 } ≤ 1 ∧
    0 ≤ calculate_risk_score { price_difference := some (1/2) }
      { id := "k1", title := "k", close_date := some 0, total_volume := some 10 }
      { id := "p1", title := "p", close_date := some 30, total_volume := some 10 } :=
  ⟨by norm_num,
   (c4_risk_score_range_amended _ _ _).1,
   (c4_risk_score_range_amended _ _ _).2 (by norm_num)⟩

open ArbitrageDetector in
/-- Claim C5, counterexample: at an opportunity with `profit_percentage = 0`
the kelly division raises `ZeroDivisionError` and the fallback returns the
full `required_investment` (1000), not the claimed
min(kellyFraction × capital, maxPositionFraction × capital, required) = 10,
so the claimed formulas do not hold for every opportunity and capital. -/
theorem c5_counterexample :
    calculate_optimal_bet_sizing
        { profit_percentage := 0, required_investment := 1000, risk_score := 0 }
        100 (1/10) ≠
      claim_bet_sizing
        { profit_percentage := 0, required_investment := 1000, risk_score := 0 }
        100 (1/10) := by
  unfold calculate_optimal_bet_sizing bet_sizing_body bet_sizing_fallback claim_bet_sizing
  norm_num

open ArbitrageDetector in
/-- Claim C5, amended: the claimed formulas (winProbability = 1 − risk,
kellyFraction = 0.5 × winProbability, investment = min of the kelly cap,
the position cap and the required investment, plus the percentage of
capital used, the expected profit and worst-case loss
investment × risk_score) hold for every opportunity with a nonzero
profit percentage and every nonzero available capital. -/
theorem c5_bet_sizing_amended (opp : ArbitrageOpportunity) (capital maxPos : ℚ)
    (hp : opp.profit_percentage ≠ 0) (hc : capital ≠ 0) :
    calculate_optimal_bet_sizing opp capital maxPos =
      claim_bet_sizing opp capital maxPos := by
  have hr : opp.profit_percentage / 100 ≠ 0 := by
    simp [div_eq_zero_iff, hp]
  unfold calculate_optimal_bet_sizing bet_sizing_body claim_bet_sizing
  rw [if_neg hr, if_neg hc]
  have hk : (1 - opp.risk_score) * (opp.profit_percentage / 100) /
      (opp.profit_percentage / 100) * (1/2) = 1/2 * (1 - opp.risk_score) := by
    rw [mul_div_assoc, div_self hr]; ring
  rw [hk, mul_comm capital maxPos]

open ArbitrageDetector in
/-- Claim C5, witness for the amended theorem at a concrete profitable
opportunity and concrete capital. -/
theorem c5_amended_witness :
    calculate_optimal_bet_sizing
        { profit_percentage := 5, required_investment := 1000, risk_score := 1/5 }
        10000 (1/10) =
      claim_bet_sizing
        { profit_percentage := 5, required_investment := 1000, risk_score := 1/5 }
        10000 (1/10) :=
  c5_bet_sizing_amended _ _ _ (by norm_num) (by norm_num)

open ArbitrageDetector in
/-- Claim C10, confirmed: whenever `profit_percentage = 0`, the kelly
computation divides zero by zero, the `except` fallback fires, and the
returned `optimal_investment` equals `required_investment` regardless of
the available capital (bypassing both caps), with the other four fields
all zero. -/
theorem c10_zero_profit_fallback (opp : ArbitrageOpportunity) (capital maxPos : ℚ)
    (h : opp.profit_percentage = 0) :
    calculate_optimal_bet_sizing opp capital maxPos =
      { optimal_investment := opp.required_investment, kelly_fraction := 0,
        position_percentage := 0, expected_profit := 0, max_loss := 0 } := by
  unfold calculate_optimal_bet_sizing bet_sizing_body bet_sizing_fallback
  rw [h]
  norm_num

open ArbitrageDetector in
/-- Claim C10, witness: a zero-profit opportunity with
`required_investment = 1000` sized against a capital of only 10 (both the
kelly cap and the 10% position cap would allow at most 1) still reports
an optimal investment of 1000. -/
theorem c10_witness :
    calculate_optimal_bet_sizing
        { profit_percentage := 0, required_investment := 1000, risk_score := 1/5 }
        10 (1/10) =
      { optimal_investment := 1000, kelly_fraction := 0,
        position_percentage := 0, expected_profit := 0, max_loss := 0 } :=
  c10_zero_profit_fallback
    { profit_percentage := 0, required_investment := 1000, risk_score := 1/5 }
    10 (1/10) rfl

namespace ArbitrageDetector

/-- The first `_get_best_price` loop equals a single scan preferring, per
outcome, `yes_price` and then `last_trade_price`. -/
theorem best_price_yes_pass_eq (l : List MarketOutcome) :
    best_price_yes_pass l =
      l.findSome? (fun o => o.yes_price.orElse fun _ => o.last_trade_price) := by
  induction l with
  | nil => rfl
  | cons o os ih =>
    rw [best_price_yes_pass, List.findSome?_cons]
    cases o.yes_price with
    | some p => rfl
    | none =>
      cases o.last_trade_price with
      | some p => rfl
      | none => simpa using ih

/-- The second `_get_best_price` loop equals mapping `1 - ·` over the first
present `no_price`. -/
theorem best_price_no_pass_eq (l : List MarketOutcome) :
    best_price_no_pass l =
      (l.findSome? (fun o => o.no_price)).map (fun p => 1 - p) := by
  induction l with
  | nil => rfl
  | cons o os ih =>
    rw [best_price_no_pass, List.findSome?_cons]
    cases o.no_price with
    | some p => rfl
    | none => simpa using ih

end ArbitrageDetector

open ArbitrageDetector in
/-- Claim C6, counterexample: for a market whose first outcome carries only
a `last_trade_price` (0) while a later outcome carries a `yes_price` (1),
the code returns the earlier outcome's `last_trade_price`, not the first
present `yes_price` as the claim orders the priorities. -/
theorem c6_counterexample :
    get_best_price
        { id := "m", title := "m",
          outcomes := [{ id := "o1", name := "No", last_trade_price := some 0 },
                       { id := "o2", name := "Yes", yes_price := some 1 }] } = some 0 ∧
    claim_best_price
        { id := "m", title := "m",
          outcomes := [{ id := "o1", name := "No", last_trade_price := some 0 },
                       { id := "o2", name := "Yes", yes_price := some 1 }] } = some 1 ∧
    (some (0 : ℚ)) ≠ some (1 : ℚ) := by
  refine ⟨rfl, rfl, by simp⟩

open ArbitrageDetector in
/-- Claim C6, amended: the derived best-available YES-probability is taken
from the first outcome carrying a `yes_price` **or** a `last_trade_price`
(preferring `yes_price` within that outcome), else it is one minus the
first present `no_price`, else absent; a market with no outcomes (or none
carrying any of these prices) yields absent, and a pair with an absent
side is rejected by `_calculate_arbitrage_opportunity`. -/
theorem c6_best_price_amended (m m2 : StandardizedMarket) :
    get_best_price m = amended_best_price m ∧
    (m.outcomes = [] → get_best_price m = none) ∧
    (get_best_price m = none → calculate_arbitrage_opportunity m m2 = none) ∧
    (get_best_price m2 = none → calculate_arbitrage_opportunity m m2 = none) := by
  refine ⟨?_, ?_, ?_, ?_⟩
  · unfold get_best_price amended_best_price
    split_ifs with h
    · simp [h]
    · rw [best_price_yes_pass_eq, best_price_no_pass_eq]
      cases m.outcomes.findSome? (fun o => o.yes_price.orElse fun _ => o.last_trade_price) with
      | some p => rfl
      | none =>
        cases m.outcomes.findSome? (fun o => o.no_price) with
        | some p => rfl
        | none => rfl
  · intro h; unfold get_best_price; rw [if_pos h]
  · intro h; unfold calculate_arbitrage_opportunity; rw [h]
  · intro h; unfold calculate_arbitrage_opportunity; rw [h]
    cases get_best_price m <;> rfl

open ArbitrageDetector in
/-- Claim C6, witness: the amended equation at the counterexample market,
and the rejection of a pair whose second market has one outcome with no
price fields at all. -/
theorem c6_amended_witness :
    get_best_price
        { id := "m", title := "m",
          outcomes := [{ id := "o1", name := "No", last_trade_price := some 0 },
                       { id := "o2", name := "Yes", yes_price := some 1 }] } =
      amended_best_price
        { id := "m", title := "m",
          outcomes := [{ id := "o1", name := "No", last_trade_price := some 0 },
                       { id := "o2", name := "Yes", yes_price := some 1 }] } ∧
    get_best_price { id := "e", title := "e", outcomes := [] } = none ∧
    calculate_arbitrage_opportunity
        { id := "m", title := "m",
          outcomes := [{ id := "o1", name := "No", last_trade_price := some 0 }] }
        { id := "n", title := "n",
          outcomes := [{ id := "o3", name := "Maybe" }] } = none :=
  ⟨(c6_best_price_amended _ { id := "x", title := "x" }).1,
   (c6_best_price_amended { id := "e", title := "e", outcomes := [] }
      { id := "x", title := "x" }).2.1 rfl,
   (c6_best_price_amended
      { id := "m", title := "m",
        outcomes := [{ id := "o1", name := "No", last_trade_price := some 0 }] }
      { id := "n", title := "n",
        outcomes := [{ id := "o3", name := "Maybe" }] }).2.2.2 rfl⟩

/-! ## Claim C9: primary-question extraction -/

/-- Removing the trailing run of characters satisfying `p`, written by
structural recursion from the head (independent of the `reverse`-based
implementation of `rstrip`). -/
def dropTrailing (p : Char → Bool) : List Char → List Char
  | [] => []
  | c :: cs =>
    match dropTrailing p cs with
    | [] => if p c then [] else [c]
    | r => c :: r

theorem dropTrailing_cons (p : Char → Bool) (c : Char) (cs : List Char) :
    dropTrailing p (c :: cs) =
      match dropTrailing p cs with
      | [] => if p c then [] else [c]
      | r => c :: r := rfl

theorem dropWhile_append_one {α : Type} [DecidableEq α] (p : α → Bool) (xs : List α) (c : α) :
    (xs ++ [c]).dropWhile p =
      if xs.dropWhile p = [] then (if p c then [] else [c])
      else xs.dropWhile p ++ [c] := by
  induction xs with
  | nil => cases hc : p c <;> simp [List.dropWhile_cons, hc]
  | cons x xs ih =>
    by_cases hx : p x
    · simpa [List.dropWhile_cons, hx] using ih
    · simp [List.dropWhile_cons, hx]

/-- The `reverse`-based `rstrip` model agrees with the head-recursive
trailing-run removal. -/
theorem rstripBy_eq_dropTrailing (p : Char → Bool) (l : List Char) :
    PyStr.rstripBy p l = dropTrailing p l := by
  induction l with
  | nil => rfl
  | cons c cs ih =>
    unfold PyStr.rstripBy at ih ⊢
    rw [List.reverse_cons, dropWhile_append_one, dropTrailing_cons]
    cases hd : dropTrailing p cs with
    | nil =>
      have h : cs.reverse.dropWhile p = [] := by
        have := ih.trans hd
        simpa [List.reverse_eq_nil_iff] using this
      rw [if_pos h]
      by_cases hc : p c <;> simp [hc]
    | cons a as =>
      have h : cs.reverse.dropWhile p ≠ [] := by
        intro hnil
        rw [← ih, hnil] at hd
        simp at hd
      rw [if_neg h, List.reverse_append]
      simp only [List.reverse_cons, List.reverse_nil, List.nil_append,
        List.singleton_append]
      rw [ih, hd]

namespace ArbitrageDetector

/-- Amended description of the Kalshi extraction: strip at most one leading
interrogative marker, then remove the whole trailing run of `'?'`
characters, then trim surrounding whitespace, then truncate beyond 200
characters with an ellipsis. -/
def amended_kalshi_extract (t : List Char) : List Char :=
  let q := stripOneInterrogative t
  let q := dropTrailing (fun c => c = '?') q
  let q := dropTrailing PyStr.isSpace (q.dropWhile PyStr.isSpace)
  truncate200 q

/-- Amended description of the Polymarket extraction: remove every `'?'`
anywhere in the title, trim surrounding whitespace, then strip at most one
leading interrogative marker, then truncate beyond 200 characters with an
ellipsis. -/
def amended_polymarket_extract (t : List Char) : List Char :=
  let q := t.filter (fun c => c ≠ '?')
  let q := dropTrailing PyStr.isSpace (q.dropWhile PyStr.isSpace)
  let q := stripOneInterrogative q
  truncate200 q

end ArbitrageDetector

open ArbitrageDetector in
/-- Claim C9, counterexample: on the title "Will it rain ?" the claim's
procedure (strip one leading marker, strip the trailing "?" and no other
character) yields "it rain " with its trailing space, while the Kalshi
code also strips the surrounding whitespace ("it rain") and the
Polymarket code removes the question mark before testing the leading
marker — both disagree with the claim as stated. -/
theorem c9_counterexample :
    kalshi_extract_primary_question "Will it rain ?".toList = "it rain".toList ∧
    polymarket_extract_primary_question "Will it rain ?".toList = "it rain".toList ∧
    claim_extract_primary_question "Will it rain ?".toList = "it rain ".toList ∧
    kalshi_extract_primary_question "Will it rain ?".toList ≠
      claim_extract_primary_question "Will it rain ?".toList ∧
    polymarket_extract_primary_question "Will it rain ?".toList ≠
      claim_extract_primary_question "Will it rain ?".toList := by
  refine ⟨by decide, by decide, by decide, by decide, by decide⟩

open ArbitrageDetector in
/-- Claim C9, amended: for every title, the Kalshi extraction strips at
most one leading prefix among "Will ", "Does ", "Did ", "Is ", "Are ",
"Has ", "Have ", then strips the whole trailing run of "?" characters and
the surrounding whitespace, then truncates beyond 200 characters to the
first 200 plus an ellipsis; the Polymarket extraction instead removes
every "?" anywhere and trims whitespace before stripping at most one
leading prefix, then truncates likewise. -/
theorem c9_extract_amended (t : List Char) :
    kalshi_extract_primary_question t = amended_kalshi_extract t ∧
    polymarket_extract_primary_question t = amended_polymarket_extract t := by
  constructor <;>
    simp only [kalshi_extract_primary_question, polymarket_extract_primary_question,
      amended_kalshi_extract, amended_polymarket_extract, PyStr.strip,
      PyStr.lstripBy, PyStr.removeChar, rstripBy_eq_dropTrailing]

/-! ## Claim C3: HTTP 429 handling and retries -/

/-- Claim C3, counterexample: the claim asserts that every request layer of
either exchange retries a 429 under the backoff policy up to max-retries
(default 3) before propagating; but `KalshiClient._make_request` has no
retry loop at all — a single 429 sleeps the Retry-After default of 60
seconds and then propagates `APIError("Rate limit exceeded")` after
exactly one attempt. -/
theorem c3_counterexample :
    (KalshiClient.make_request (.response 429 none "")).attempts = 1 ∧
    (KalshiClient.make_request (.response 429 none "")).result =
      .error ⟨"Rate limit exceeded"⟩ ∧
    (KalshiClient.make_request (.response 429 none "")).sleeps = [60] ∧
    (KalshiClient.make_request (.response 429 none "")).attempts ≠ 3 := by
  refine ⟨?_, ?_, ?_, ?_⟩ <;> norm_num [KalshiClient.make_request]

/-- Claim C3, amended: only the Polymarket client implements the claimed
policy — on 429 it reads Retry-After (default 60), sleeps it, and retries
under the 2-seconds-times-attempt backoff, capped at max-retries
(default 3), propagating the last error after exhaustion, and a
successful first attempt returns immediately; the Kalshi client instead
issues exactly one attempt for every request outcome. -/
theorem c3_retry_amended :
    (∀ (oracle : Nat → HttpOutcome) (ra1 ra2 ra3 : Option ℤ) (b1 b2 b3 : String),
      oracle 1 = .response 429 ra1 b1 →
      oracle 2 = .response 429 ra2 b2 →
      oracle 3 = .response 429 ra3 b3 →
      PolymarketClient.make_request oracle 3 =
        ⟨.error ⟨"Rate limit exceeded"⟩,
         [1/10, ((ra1.getD 60 : ℤ) : ℚ), 2, 1/10, ((ra2.getD 60 : ℤ) : ℚ), 4,
          1/10, ((ra3.getD 60 : ℤ) : ℚ)], 3⟩) ∧
    (∀ (oracle : Nat → HttpOutcome) (ra : Option ℤ) (b : String),
      oracle 1 = .response 200 ra b →
      PolymarketClient.make_request oracle 3 = ⟨.ok b, [1/10], 1⟩) ∧
    (∀ oracle : HttpOutcome, (KalshiClient.make_request oracle).attempts = 1) := by
  refine ⟨?_, ?_, ?_⟩
  · intro oracle ra1 ra2 ra3 b1 b2 b3 h1 h2 h3
    simp only [PolymarketClient.make_request, PolymarketClient.make_request_go,
      h1, h2, h3]
    norm_num
  · intro oracle ra b h1
    simp only [PolymarketClient.make_request, PolymarketClient.make_request_go, h1]
    norm_num
  · intro oracle
    cases oracle with
    | transport m => rfl
    | response s ra b =>
      simp only [KalshiClient.make_request]
      split_ifs <;> rfl

/-- Claim C3, witness for the amended theorem: a server answering 429 with
Retry-After 7 on all three attempts, a server succeeding immediately, and
the single-attempt Kalshi client. -/
theorem c3_amended_witness :
    PolymarketClient.make_request (fun _ => .response 429 (some 7) "x") 3 =
      ⟨.error ⟨"Rate limit exceeded"⟩,
       [1/10, ((7 : ℤ) : ℚ), 2, 1/10, ((7 : ℤ) : ℚ), 4, 1/10, ((7 : ℤ) : ℚ)], 3⟩ ∧
    PolymarketClient.make_request (fun _ => .response 200 none "body") 3 =
      ⟨.ok "body", [1/10], 1⟩ ∧
    (KalshiClient.make_request (.response 429 (some 7) "x")).attempts = 1 :=
  ⟨c3_retry_amended.1 _ (some 7) (some 7) (some 7) "x" "x" "x" rfl rfl rfl,
   c3_retry_amended.2.1 _ none "body" rfl,
   c3_retry_amended.2.2 _⟩

/-! ## Claim C1: batch price chunking -/

namespace PolymarketClient

/-- The 25 token identifiers of the claim's batch-price scenario. -/
def c1_tokens : List String := (List.range 25).map (fun n => "t" ++ Nat.repr n)

end PolymarketClient

open PolymarketClient in
/-- Claim C1, code bug: for a batch of 25 token ids the code does **not**
issue 3 chunk requests of 20, 20 and 10 BUY/SELL entries.  Because the
payload construction and the POST loop are dedented out of the chunking
loop, it issues 5 POST requests — one per token of the **last** chunk —
with cumulative payloads of 2, 4, 6, 8 and 10 entries, never requesting
prices for the first 20 tokens (here every request fails, which is indeed
absorbed rather than fatal, and the batch result degrades to `None`). -/
theorem c1_batch_chunking_code_bug :
    (get_market_prices (fun _ => .error ⟨"chunk failed"⟩) c1_tokens).2.map List.length =
      [2, 4, 6, 8, 10] ∧
    (get_market_prices (fun _ => .error ⟨"chunk failed"⟩) c1_tokens).2.length = 5 ∧
    (get_market_prices (fun _ => .error ⟨"chunk failed"⟩) c1_tokens).2.map List.length ≠
      [20, 20, 10] ∧
    (∀ req ∈ (get_market_prices (fun _ => .error ⟨"chunk failed"⟩) c1_tokens).2,
      ∀ bp ∈ req, bp.token_id ∈ ["t20", "t21", "t22", "t23", "t24"]) ∧
    (get_market_prices (fun _ => .error ⟨"chunk failed"⟩) c1_tokens).1 = none := by
  refine ⟨by decide, by decide, by decide, by decide, by decide⟩

/-! ## Claim C2: failure degradation of the public operations -/

/-- Claim C2, counterexample: on a failed fetch, `KalshiClient.get_markets`
does not return an empty list — it re-raises a wrapped `APIError` to the
caller. -/
theorem c2_counterexample :
    KalshiClient.get_markets (fun _ => .error ⟨"connection reset"⟩)
        (fun _ => none) none =
      .error ⟨"Failed to fetch Kalshi markets: connection reset"⟩ ∧
    KalshiClient.get_markets (fun _ => .error ⟨"connection reset"⟩)
        (fun _ => none) none ≠ .ok [] := by
  refine ⟨rfl, by simp [KalshiClient.get_markets]⟩

/-- Claim C2, amended: the Polymarket listing and keyword-listing
operations and both clients' detail fetches degrade to an empty or absent
result whenever the underlying request sequence fails, but Kalshi's
`get_markets` and `get_markets_by_keyword` propagate a wrapped `APIError`
to the caller instead of returning an empty list. -/
theorem c2_error_degradation_amended :
    (∀ fetch cb limit fuel e,
      PolymarketClient.get_markets_go fetch cb limit fuel "" [] = .error e →
      PolymarketClient.get_markets fetch cb limit fuel = []) ∧
    (∀ fetch cb kw fuel e,
      PolymarketClient.get_markets_by_keyword_go fetch cb kw fuel "" [] 0 = .error e →
      PolymarketClient.get_markets_by_keyword fetch cb kw fuel = ([], 0)) ∧
    (∀ fetch conv mid e, fetch mid = .error e →
      KalshiClient.get_market_details fetch conv mid = none) ∧
    (∀ fetch post convP mid e, fetch mid = .error e →
      PolymarketClient.get_market_details fetch post convP mid = none) ∧
    (∀ fetch conv limit e,
      fetch { status := "open",
              limit := if PyStr.natOptTruthy limit then limit else none,
              cursor := none } = .error e →
      KalshiClient.get_markets fetch conv limit =
        .error ⟨"Failed to fetch Kalshi markets: " ++ e.msg⟩) ∧
    (∀ fetch conv kw fuel e,
      KalshiClient.get_markets_by_keyword_go fetch conv kw fuel none [] 0 = .error e →
      KalshiClient.get_markets_by_keyword fetch conv kw fuel =
        .error ⟨"Failed to fetch Kalshi markets by keyword: " ++ e.msg⟩) := by
  refine ⟨?_, ?_, ?_, ?_, ?_, ?_⟩
  · intro fetch cb limit fuel e h
    simp only [PolymarketClient.get_markets, h]
  · intro fetch cb kw fuel e h
    simp only [PolymarketClient.get_markets_by_keyword, h]
  · intro fetch conv mid e h
    simp only [KalshiClient.get_market_details, h]
  · intro fetch post convP mid e h
    simp only [PolymarketClient.get_market_details, h]
  · intro fetch conv limit e h
    simp only [KalshiClient.get_markets, h]
  · intro fetch conv kw fuel e h
    simp only [KalshiClient.get_markets_by_keyword, h]

/-- Claim C2, witness for the amended theorem at oracles whose first
request already fails. -/
theorem c2_amended_witness :
    PolymarketClient.get_markets (fun _ => .error ⟨"boom"⟩) (fun _ => []) none 1 = [] ∧
    PolymarketClient.get_markets_by_keyword (fun _ => .error ⟨"boom"⟩)
      (fun _ => []) "kw" 1 = ([], 0) ∧
    KalshiClient.get_market_details (fun _ => .error ⟨"boom"⟩) (fun _ => none) "m1" = none ∧
    PolymarketClient.get_market_details (fun _ => .error ⟨"boom"⟩)
      (fun _ => .error ⟨"boom"⟩) (fun _ _ => none) "m1" = none ∧
    KalshiClient.get_markets (fun _ => .error ⟨"boom"⟩) (fun _ => none) none =
      .error ⟨"Failed to fetch Kalshi markets: boom"⟩ ∧
    KalshiClient.get_markets_by_keyword (fun _ => .error ⟨"boom"⟩)
      (fun _ => none) "kw" 1 =
      .error ⟨"Failed to fetch Kalshi markets by keyword: boom"⟩ :=
  ⟨c2_error_degradation_amended.1 _ _ none 1 ⟨"boom"⟩ rfl,
   c2_error_degradation_amended.2.1 _ _ "kw" 1 ⟨"boom"⟩ rfl,
   c2_error_degradation_amended.2.2.1 _ _ "m1" ⟨"boom"⟩ rfl,
   c2_error_degradation_amended.2.2.2.1 _ _ _ "m1" ⟨"boom"⟩ rfl,
   c2_error_degradation_amended.2.2.2.2.1 _ _ none ⟨"boom"⟩ rfl,
   c2_error_degradation_amended.2.2.2.2.2 _ _ "kw" 1 ⟨"boom"⟩ rfl⟩

/-! ## Claim C7: cursor pagination -/

namespace KalshiClient

/-- Cursor pagination exactly as claim C7 words it for the Kalshi keyword
listing: keep requesting with the server-supplied cursor, accumulating the
keyword-matching records of every page, until the server returns no
cursor (the only stopping rule the claim allows besides an explicit end
sentinel, which Kalshi does not use). -/
def claim_cursor_paginate (fetch : KalshiReq → Except APIError KalshiMarketsResponse)
    (convert : KalshiRawMarket → Option StandardizedMarket) (keyword : String) :
    Nat → Option String → List StandardizedMarket → Nat →
      Except APIError (List StandardizedMarket × Nat)
  | 0, _, acc, n => .ok (acc, n)
  | fuel + 1, cursor, acc, n =>
    let n := n + 1
    let params : KalshiReq :=
      { status := "open", limit := some 200,
        cursor := if PyStr.strOptTruthy cursor then cursor else none }
    match fetch params with
    | .error e => .error e
    | .ok response =>
      let acc := acc ++ keywordFilterMap convert keyword response.markets
      if ¬ PyStr.strOptTruthy response.cursor then .ok (acc, n)
      else claim_cursor_paginate fetch convert keyword fuel response.cursor acc n

/-- A mocked 2-page Kalshi source: page 1 has one matching record and a
cursor, page 2 has one matching record and no cursor. -/
def c7_fetch : KalshiReq → Except APIError KalshiMarketsResponse :=
  fun req =>
    match req.cursor with
    | none => .ok { markets := [{ ticker := "T1", title := "Alpha one" }],
                    cursor := some "c1" }
    | some c =>
      if c = "c1" then
        .ok { markets := [{ ticker := "T2", title := "Alpha two" }], cursor := none }
      else .ok { markets := [], cursor := none }

/-- A conversion standing in for `_convert_to_standardized_market` on the
mocked records. -/
def c7_convert : KalshiRawMarket → Option StandardizedMarket :=
  fun r => some { id := r.ticker, title := r.title }

end KalshiClient

open KalshiClient in
/-- Claim C7, counterexample: the Kalshi keyword listing does not keep
requesting until the server stops supplying a cursor — it also breaks as
soon as a page carries fewer than 200 records.  On a 2-page source whose
first page has 1 record and a live cursor, the claim's procedure performs
2 fetches and returns both matches, but the code performs exactly 1 fetch
and returns only the first page's match. -/
theorem c7_counterexample :
    KalshiClient.get_markets_by_keyword c7_fetch c7_convert "alpha" 10 =
      .ok ([{ id := "T1", title := "Alpha one" }], 1) ∧
    claim_cursor_paginate c7_fetch c7_convert "alpha" 10 none [] 0 =
      .ok ([{ id := "T1", title := "Alpha one" },
            { id := "T2", title := "Alpha two" }], 2) ∧
    KalshiClient.get_markets_by_keyword c7_fetch c7_convert "alpha" 10 ≠
      .ok ([{ id := "T1", title := "Alpha one" },
            { id := "T2", title := "Alpha two" }], 2) := by
  refine ⟨by decide, by decide, by decide⟩

/-- Claim C7, amended: on a mocked 3-page source whose final page returns
no live cursor, the Polymarket keyword listing performs exactly 3 fetches
and accumulates the keyword matches of all 3 pages whenever the first two
pages are non-empty and their cursors are live (non-empty and not the
"LTE=" sentinel); the Kalshi keyword listing does the same **provided
additionally** that each non-final page carries at least 200 records,
since it stops early on any shorter page even when a cursor is present. -/
theorem c7_pagination_amended :
    (∀ (fetch : Option String → Except APIError (Option PolymarketClient.PolyPage))
       (cb : List PolymarketClient.PolyRawMarket → List StandardizedMarket)
       (kw : String) (n : Nat) (d1 d2 d3 : List PolymarketClient.PolyRawMarket)
       (c1 c2 : String),
      fetch none = .ok (some ⟨d1, c1⟩) →
      fetch (some c1) = .ok (some ⟨d2, c2⟩) →
      fetch (some c2) = .ok (some ⟨d3, ""⟩) →
      d1 ≠ [] → d2 ≠ [] → d3 ≠ [] →
      c1 ≠ "" → c1 ≠ "LTE=" → c2 ≠ "" → c2 ≠ "LTE=" →
      PolymarketClient.get_markets_by_keyword fetch cb kw (n + 3) =
        ((PolymarketClient.guardedConvert cb (PolymarketClient.keywordPageFilter kw d1) ++
          PolymarketClient.guardedConvert cb (PolymarketClient.keywordPageFilter kw d2)) ++
          PolymarketClient.guardedConvert cb (PolymarketClient.keywordPageFilter kw d3),
         3)) ∧
    (∀ (fetch : KalshiClient.KalshiReq → Except APIError KalshiClient.KalshiMarketsResponse)
       (conv : KalshiClient.KalshiRawMarket → Option StandardizedMarket)
       (kw : String) (n : Nat) (d1 d2 d3 : List KalshiClient.KalshiRawMarket)
       (c1 c2 : String),
      fetch { status := "open", limit := some 200, cursor := none } = .ok ⟨d1, some c1⟩ →
      fetch { status := "open", limit := some 200, cursor := some c1 } = .ok ⟨d2, some c2⟩ →
      fetch { status := "open", limit := some 200, cursor := some c2 } = .ok ⟨d3, none⟩ →
      ¬ d1.length < 200 → ¬ d2.length < 200 → d3 ≠ [] →
      c1 ≠ "" → c2 ≠ "" →
      KalshiClient.get_markets_by_keyword fetch conv kw (n + 3) =
        .ok ((KalshiClient.keywordFilterMap conv kw d1 ++
              KalshiClient.keywordFilterMap conv kw d2) ++
              KalshiClient.keywordFilterMap conv kw d3,
             3)) := by
  constructor
  · intro fetch cb kw n d1 d2 d3 c1 c2 h1 h2 h3 hd1 hd2 hd3 hc1 hc1' hc2 hc2'
    simp [PolymarketClient.get_markets_by_keyword,
      PolymarketClient.get_markets_by_keyword_go,
      h1, h2, h3, hd1, hd2, hd3, hc1, hc1', hc2, hc2']
  · intro fetch conv kw n d1 d2 d3 c1 c2 h1 h2 h3 hl1 hl2 hd3 hc1 hc2
    have hd1 : d1 ≠ [] := by intro h; rw [h] at hl1; simp at hl1
    have hd2 : d2 ≠ [] := by intro h; rw [h] at hl2; simp at hl2
    simp [KalshiClient.get_markets_by_keyword,
      KalshiClient.get_markets_by_keyword_go, PyStr.strOptTruthy,
      h1, h2, h3, hl1, hl2, hd1, hd2, hd3, hc1, hc2]

namespace PolymarketClient

/-- Mocked Polymarket page-1 record (matches keyword "alpha"). -/
def c7_poly_r1 : PolyRawMarket :=
  { condition_id := "P1", question := "Alpha one", active := true, closed := false }

/-- Mocked Polymarket page-2 record (matches keyword "alpha"). -/
def c7_poly_r2 : PolyRawMarket :=
  { condition_id := "P2", question := "Alpha two", active := true, closed := false }

/-- Mocked Polymarket page-3 record (does not match keyword "alpha"). -/
def c7_poly_r3 : PolyRawMarket :=
  { condition_id := "P3", question := "Gamma", active := true, closed := false }

/-- A mocked 3-page Polymarket source whose final page returns no cursor. -/
def c7_poly_fetch : Option String → Except APIError (Option PolyPage) :=
  fun c =>
    match c with
    | none => .ok (some { data := [c7_poly_r1], next_cursor := "pc1" })
    | some s =>
      if s = "pc1" then .ok (some { data := [c7_poly_r2], next_cursor := "pc2" })
      else if s = "pc2" then .ok (some { data := [c7_poly_r3], next_cursor := "" })
      else .ok none

/-- A batch conversion standing in for `_convert_markets_with_batch_pricing`
on the mocked records. -/
def c7_poly_cb : List PolyRawMarket → List StandardizedMarket :=
  fun rs => rs.map (fun r => { id := r.condition_id, title := r.question })

end PolymarketClient

namespace KalshiClient

/-- Mocked full-page Kalshi record (matches keyword "alpha"). -/
def c7_kalshi_r : KalshiRawMarket := { ticker := "K", title := "Alpha k" }

/-- Mocked final-page Kalshi record (matches keyword "alpha"). -/
def c7_kalshi_r3 : KalshiRawMarket := { ticker := "K3", title := "Alpha three" }

/-- A mocked 3-page Kalshi source: two full 200-record pages with live
cursors, then a short final page with no cursor. -/
def c7_kalshi_fetch : KalshiReq → Except APIError KalshiMarketsResponse :=
  fun req =>
    match req.cursor with
    | none => .ok { markets := List.replicate 200 c7_kalshi_r, cursor := some "kc1" }
    | some s =>
      if s = "kc1" then
        .ok { markets := List.replicate 200 c7_kalshi_r, cursor := some "kc2" }
      else if s = "kc2" then .ok { markets := [c7_kalshi_r3], cursor := none }
      else .ok { markets := [], cursor := none }

end KalshiClient

open PolymarketClient KalshiClient in
/-- Claim C7, witness for the amended theorem: the mocked 3-page sources
yield exactly 3 fetches and the accumulated keyword matches. -/
theorem c7_amended_witness :
    PolymarketClient.get_markets_by_keyword c7_poly_fetch c7_poly_cb "alpha" 3 =
      ((guardedConvert c7_poly_cb (keywordPageFilter "alpha" [c7_poly_r1]) ++
        guardedConvert c7_poly_cb (keywordPageFilter "alpha" [c7_poly_r2])) ++
        guardedConvert c7_poly_cb (keywordPageFilter "alpha" [c7_poly_r3]),
       3) ∧
    KalshiClient.get_markets_by_keyword c7_kalshi_fetch c7_convert "alpha" 3 =
      .ok ((keywordFilterMap c7_convert "alpha" (List.replicate 200 c7_kalshi_r) ++
            keywordFilterMap c7_convert "alpha" (List.replicate 200 c7_kalshi_r)) ++
            keywordFilterMap c7_convert "alpha" [c7_kalshi_r3],
           3) :=
  ⟨c7_pagination_amended.1 c7_poly_fetch c7_poly_cb "alpha" 0
      [c7_poly_r1] [c7_poly_r2] [c7_poly_r3] "pc1" "pc2"
      rfl rfl rfl (by decide) (by decide) (by decide)
      (by decide) (by decide) (by decide) (by decide),
   c7_pagination_amended.2 c7_kalshi_fetch c7_convert "alpha" 0
      (List.replicate 200 c7_kalshi_r) (List.replicate 200 c7_kalshi_r) [c7_kalshi_r3]
      "kc1" "kc2" rfl rfl rfl
      (by rw [List.length_replicate]; omega) (by rw [List.length_replicate]; omega)
      (by decide) (by decide) (by decide)⟩
